import Mathlib

/-!
Verification development for the `libtalley` seismic-engineering library.

The definitions below are a shallow embedding of the repository's
interpolation / unit-handling core:

* `fema_p695.py` — 1-D and 2-D table interpolation (`sf1`, `ssf`),
  mapped seismic parameters (`mapped_value`), and the seismic response
  coefficient (`seismic_response_coeff`).
* `src/libtalley/units.py` — the `UnitInputParser` quantity parser and
  the `convert` helper (backed by `pint`), plus the legacy
  `process_unit_input` from `libtalley/units.py` (backed by `unyt`).

Machine floats are modelled as exact rationals (`ℚ`); Python exceptions
are modelled with `Except` / `Option`.
-/

/-! ### Linear interpolation (scipy `interp1d` / `interp2d` as used here)

`scipy.interpolate.interp1d(xs, ys)` builds a piecewise-linear
interpolant over strictly increasing knots `xs`; evaluating it at a
point outside `[xs[0], xs[-1]]` raises a `ValueError`
(`bounds_error` defaults to `True`).  `interpPoints` walks the knot
list (zipped with its values) looking for the bracketing segment.
-/

def interpPoints : List (ℚ × ℚ) → ℚ → Option ℚ
  | p :: q :: rest, x =>
      if x ≤ q.1 then some (p.2 + (q.2 - p.2) * (x - p.1) / (q.1 - p.1))
      else interpPoints (q :: rest) x
  | [p], x => if x = p.1 then some p.2 else none
  | [], _ => none

/-- Evaluate the linear interpolant through `(xs, ys)` at `x`;
`none` models scipy's out-of-bounds `ValueError`. -/
def interp1d (xs ys : List ℚ) (x : ℚ) : Option ℚ :=
  match xs with
  | [] => none
  | x0 :: _ => if x < x0 then none else interpPoints (xs.zip ys) x

/-- Bilinear interpolation over the grid `Z` (rows indexed by `ys`,
columns by `xs`), as `scipy.interpolate.interp2d(xs, ys, Z)` evaluated
at `(x, y)`: interpolate each row at `x`, then interpolate the
resulting column at `y`. -/
def interp2d (xs ys : List ℚ) (Z : List (List ℚ)) (x y : ℚ) : Option ℚ :=
  match Z.mapM (fun row => interp1d xs row x) with
  | some col => interp1d ys col y
  | none => none

/-! ### `fema_p695.py`: mapped seismic design values -/

/-- One row of `_mapped_value_dict` in `fema_p695.py`: the mapped
seismic parameters for one design category. -/
structure MappedValues where
  ss : ℚ
  s1 : ℚ
  fa : ℚ
  fv : ℚ
  sms : ℚ
  sm1 : ℚ
  sds : ℚ
  sd1 : ℚ
  ts : ℚ
deriving DecidableEq

/-- `_mapped_value_dict["dmax"]`. -/
def dmaxValues : MappedValues :=
  ⟨1.5, 0.59999999999, 1.0, 1.50, 1.50, 0.90, 1.0, 0.60, 0.60⟩

/-- `_mapped_value_dict["dmin"]`. -/
def dminValues : MappedValues :=
  ⟨0.55, 0.132, 1.36, 2.28, 0.75, 0.30, 0.50, 0.20, 0.40⟩

/-- `_mapped_value_dict["cmin"]`. -/
def cminValues : MappedValues :=
  ⟨0.33, 0.083, 1.53, 2.4, 0.50, 0.20, 0.33, 0.133, 0.40⟩

/-- `_mapped_value_dict["bmin"]`. -/
def bminValues : MappedValues :=
  ⟨0.156, 0.042, 1.6, 2.4, 0.25, 0.10, 0.167, 0.067, 0.40⟩

/-- `_mapped_value_dict`, after the alias assignments
`_mapped_value_dict["cmax"] = _mapped_value_dict["dmin"]` and
`_mapped_value_dict["bmax"] = _mapped_value_dict["cmin"]`.
`none` models a `KeyError`. -/
def mappedValueDict : String → Option MappedValues
  | "dmax" => some dmaxValues
  | "dmin" => some dminValues
  | "cmax" => some dminValues
  | "cmin" => some cminValues
  | "bmax" => some cminValues
  | "bmin" => some bminValues
  | _ => none

/-- Python's `str.lower` on an ASCII character. -/
def lowerChar (c : Char) : Char :=
  if 'A' ≤ c ∧ c ≤ 'Z' then Char.ofNat (c.toNat + 32) else c

/-- Python's `str.lower` for the ASCII strings used here. -/
def pyLower (str : String) : String :=
  String.mk (str.data.map lowerChar)

/-- Field access `_mapped_value_dict[sdc][value]` for a lower-cased
parameter name; `none` models a `KeyError`. -/
def mappedValueLookup (value : String) (m : MappedValues) : Option ℚ :=
  match value with
  | "ss" => some m.ss
  | "s1" => some m.s1
  | "fa" => some m.fa
  | "fv" => some m.fv
  | "sms" => some m.sms
  | "sm1" => some m.sm1
  | "sds" => some m.sds
  | "sd1" => some m.sd1
  | "ts" => some m.ts
  | _ => none

/-- `fema_p695.mapped_value(value, sdc)`:
`_mapped_value_dict[sdc.lower()][value.lower()]`. -/
def mapped_value (value sdc : String) : Option ℚ :=
  (mappedValueDict (pyLower sdc)).bind (mappedValueLookup (pyLower value))

/-! ### `fema_p695.py`: scale factor 1 (`sf1`, `smt`) -/

/-- `_T_INTERP` in `fema_p695.py`. -/
def tInterpTable : List ℚ :=
  [0.25, 0.30, 0.35, 0.40, 0.45, 0.5, 0.6, 0.7, 0.8, 0.9, 1.0, 1.2,
   1.4, 1.6, 1.8, 2.0, 2.2, 2.4, 2.6, 2.8, 3.0, 3.5, 4.0, 4.5, 5.0]

/-- `_SNRT_INTERP` in `fema_p695.py`. -/
def snrtTable : List ℚ :=
  [0.785, 0.781, 0.767, 0.754, 0.755, 0.742, 0.607, 0.541, 0.453, 0.402,
   0.350, 0.303, 0.258, 0.210, 0.169, 0.149, 0.134, 0.119, 0.106, 0.092,
   0.081, 0.063, 0.053, 0.046, 0.041]

/-- `fema_p695.smt(T, sdc)`; `none` models the `KeyError` from an
unknown design category inside `mapped_value`. -/
def smt (T : ℚ) (sdc : String) : Option ℚ :=
  match mapped_value "SM1" sdc, mapped_value "SMS" sdc with
  | some SM1, some SMS => some (if T ≤ SM1 / SMS then SMS else SM1 / T)
  | _, _ => none

/-- `fema_p695.sf1(T, sdc)`: raises when
`T <= _T_INTERP[0] or T >= _T_INTERP[-1]`, otherwise returns
`smt(T, sdc) / interp1d(_T_INTERP, _SNRT_INTERP)(T)`. -/
def sf1 (T : ℚ) (sdc : String) : Except String ℚ :=
  if T ≤ tInterpTable.headD 0 ∨ tInterpTable.getLastD 0 ≤ T then
    Except.error "Period is out of range"
  else
    match interp1d tInterpTable snrtTable T, smt T sdc with
    | some SNRT, some SMT => Except.ok (SMT / SNRT)
    | _, _ => Except.error "lookup failed"

/-! ### `fema_p695.py`: spectral shape factor (`ssf`) -/

/-- `_Z_SSF_DICT["Dmax"]` (11 rows for `_Y_T`, 8 columns for `_X_MU_T`). -/
def zssfDmax : List (List ℚ) :=
  [[1.00, 1.05, 1.10, 1.13, 1.18, 1.22, 1.28, 1.33],
   [1.00, 1.05, 1.11, 1.14, 1.20, 1.24, 1.30, 1.36],
   [1.00, 1.06, 1.11, 1.15, 1.21, 1.25, 1.32, 1.38],
   [1.00, 1.06, 1.12, 1.16, 1.22, 1.27, 1.35, 1.41],
   [1.00, 1.06, 1.13, 1.17, 1.24, 1.29, 1.37, 1.44],
   [1.00, 1.07, 1.13, 1.18, 1.25, 1.31, 1.39, 1.46],
   [1.00, 1.07, 1.14, 1.19, 1.27, 1.32, 1.41, 1.49],
   [1.00, 1.07, 1.15, 1.20, 1.28, 1.34, 1.44, 1.52],
   [1.00, 1.08, 1.16, 1.21, 1.29, 1.36, 1.46, 1.55],
   [1.00, 1.08, 1.16, 1.22, 1.31, 1.38, 1.49, 1.58],
   [1.00, 1.08, 1.17, 1.23, 1.32, 1.40, 1.51, 1.61]]

/-- `_Z_SSF_DICT["Dmin"]`. -/
def zssfDmin : List (List ℚ) :=
  [[1.00, 1.02, 1.04, 1.06, 1.08, 1.09, 1.12, 1.14],
   [1.00, 1.02, 1.05, 1.07, 1.09, 1.11, 1.13, 1.16],
   [1.00, 1.03, 1.06, 1.08, 1.10, 1.12, 1.15, 1.18],
   [1.00, 1.03, 1.06, 1.08, 1.11, 1.14, 1.17, 1.20],
   [1.00, 1.03, 1.07, 1.09, 1.13, 1.15, 1.19, 1.22],
   [1.00, 1.04, 1.08, 1.10, 1.14, 1.17, 1.21, 1.25],
   [1.00, 1.04, 1.08, 1.11, 1.15, 1.18, 1.23, 1.27],
   [1.00, 1.04, 1.09, 1.12, 1.17, 1.20, 1.25, 1.30],
   [1.00, 1.05, 1.10, 1.13, 1.18, 1.22, 1.27, 1.32],
   [1.00, 1.05, 1.10, 1.14, 1.19, 1.23, 1.30, 1.35],
   [1.00, 1.05, 1.11, 1.15, 1.21, 1.25, 1.32, 1.37]]

/-- `_Z_SSF_DICT`, after the alias assignments
`_Z_SSF_DICT["Cmax"] = _Z_SSF_DICT["Cmin"] = _Z_SSF_DICT["Bmax"] =
_Z_SSF_DICT["Bmin"] = _Z_SSF_DICT["Dmin"]`.  Keys are used as-is
(no lower-casing in `ssf`); `none` models the `KeyError` that `ssf`
re-raises as `ValueError`. -/
def zSsfDict : String → Option (List (List ℚ))
  | "Dmax" => some zssfDmax
  | "Dmin" => some zssfDmin
  | "Cmax" => some zssfDmin
  | "Cmin" => some zssfDmin
  | "Bmax" => some zssfDmin
  | "Bmin" => some zssfDmin
  | _ => none

/-- `_X_MU_T` (second-axis / ductility grid of the SSF tables). -/
def xMuT : List ℚ := [1.0, 1.1, 1.5, 2, 3, 4, 6, 8]

/-- `_Y_T` (first-axis / period grid of the SSF tables). -/
def yT : List ℚ := [0.5, 0.6, 0.7, 0.8, 0.9, 1.0, 1.1, 1.2, 1.3, 1.4, 1.5]

/-- `Z_SSF[:, -1]`: the last column of the grid. -/
def lastColumn (Z : List (List ℚ)) : List ℚ :=
  Z.map (fun row => row.getLastD 0)

/-- `fema_p695.ssf(T, mu_t, sdc)`.  Mirrors the source branch ladder:

* unknown category → `ValueError`;
* `mu_t < 1` → `ValueError`;
* `T <= 0.5`: corner `Z_SSF[0, -1]` if `mu_t >= 8`, else 1-D
  interpolation of the first row at `mu_t`;
* `T >= 1.5`: corner `Z_SSF[-1, -1]` if `mu_t >= 8`, else 1-D
  interpolation of the last row at `mu_t`;
* otherwise, if `mu_t >= 8` the source builds
  `interp1d(_Y_T, Z_SSF[:, -1])` and evaluates it **at `mu_t`**
  (`f(mu_t)`, exactly as written in the source — not at `T`),
  which is outside the `_Y_T` grid; else full bilinear
  `interp2d(_X_MU_T, _Y_T, Z_SSF)(mu_t, T)`. -/
def ssf (T mu_t : ℚ) (sdc : String) : Except String ℚ :=
  match zSsfDict sdc with
  | none => Except.error "Unknown seismic design category"
  | some Z =>
    if mu_t < 1 then Except.error "mu_t must be greater than or equal to 1"
    else if T ≤ 0.5 then
      if 8 ≤ mu_t then Except.ok ((Z.headD []).getLastD 0)
      else
        match interp1d xMuT (Z.headD []) mu_t with
        | some v => Except.ok v
        | none => Except.error "interpolation out of range"
    else if 1.5 ≤ T then
      if 8 ≤ mu_t then Except.ok ((Z.getLastD []).getLastD 0)
      else
        match interp1d xMuT (Z.getLastD []) mu_t with
        | some v => Except.ok v
        | none => Except.error "interpolation out of range"
    else
      if 8 ≤ mu_t then
        match interp1d yT (lastColumn Z) mu_t with
        | some v => Except.ok v
        | none => Except.error "interpolation out of range"
      else
        match interp2d xMuT yT Z mu_t T with
        | some v => Except.ok v
        | none => Except.error "interpolation out of range"

/-- `fema_p695.seismic_response_coeff(R, T, sdc)`.  (The source also
prints a warning to stderr for `T > 4.0`, which does not affect the
returned value.) -/
def seismic_response_coeff (R T : ℚ) (sdc : String) : Option ℚ :=
  match mapped_value "Ts" sdc, mapped_value "SD1" sdc, mapped_value "SDS" sdc with
  | some Ts, some SD1, some SDS =>
      let Cs := if T ≤ Ts then SDS / R else max (SD1 / (T * R)) (0.044 * SDS)
      some (max Cs 0.01)
  | _, _, _ => none

/-! ### `src/libtalley/units.py`: unit-aware quantity parsing

The parser sits on top of `pint`.  The model keeps just what the
claims need: a unit is a physical dimension together with an exact
scale factor to that dimension's base unit, and a quantity is a
magnitude tagged with a unit.
-/

namespace units

/-- The physical dimension of a unit (`pint.Unit.dimensionality`). -/
inductive Dimension
  | length
  | time
  | pressure
  | dimensionless
deriving DecidableEq

/-- A `pint.Unit`: its dimension plus the exact conversion factor to
the dimension's base unit. -/
structure Unit where
  dim : Dimension
  toBase : ℚ
deriving DecidableEq

/-- `psi` (pressure; taken as the base pressure unit here). -/
def psi : Unit := ⟨Dimension.pressure, 1⟩

/-- `ft`: 0.3048 m. -/
def ft : Unit := ⟨Dimension.length, 0.3048⟩

/-- `inch`: 0.0254 m. -/
def inch : Unit := ⟨Dimension.length, 0.0254⟩

/-- `mm`: 0.001 m. -/
def mm : Unit := ⟨Dimension.length, 0.001⟩

/-- `s` (time; base). -/
def s : Unit := ⟨Dimension.time, 1⟩

/-- The dimensionless unit (`registry.dimensionless`). -/
def dimensionless : Unit := ⟨Dimension.dimensionless, 1⟩

/-- A `pint.Quantity`: a magnitude (`.m`) and units. -/
structure Quantity where
  mag : ℚ
  units : Unit
deriving DecidableEq

/-- The exceptions raised by the parser: `ValueError` for input
without units when no default is set (`MissingUnitsError` in the
spec's taxonomy), and `pint.DimensionalityError` carrying the two
incompatible dimensions. -/
inductive UnitsError
  | missingUnits
  | dimensionality (a b : Dimension)
deriving DecidableEq

/-- `pint.Quantity.to(units)`: convert to compatible units, raising
`DimensionalityError` otherwise. -/
def Quantity.to (q : Quantity) (u : Unit) : Except UnitsError Quantity :=
  if q.units.dim = u.dim then
    Except.ok ⟨q.mag * q.units.toBase / u.toBase, u⟩
  else
    Except.error (UnitsError.dimensionality q.units.dim u.dim)

/-- The input shapes admitted by `UnitInputParser.parse`: a bare
number, a `(value, unit)` 2-tuple, an existing `Quantity`, and a
string expression such as `"1000 psi"` (modelled by the value and
unit that `registry.parse_expression` extracts from it). -/
inductive Input
  | num (x : ℚ)
  | pair (x : ℚ) (u : Unit)
  | quant (q : Quantity)
  | str (x : ℚ) (u : Unit)

/-- `UnitInputParser._parse_internal`, dispatched on the input shape:
a bare number with no units in scope raises (`ValueError`); otherwise
the value is wrapped / passed through.  (The length-2 check on tuple
inputs is outside this model: `Input.pair` is already a 2-tuple.) -/
def parseInternal (inp : Input) (units : Option Unit) : Except UnitsError Quantity :=
  match inp with
  | Input.num x =>
      match units with
      | none => Except.error UnitsError.missingUnits
      | some u => Except.ok ⟨x, u⟩
  | Input.pair x u => Except.ok ⟨x, u⟩
  | Input.quant q => Except.ok q
  | Input.str x u => Except.ok ⟨x, u⟩

/-- `UnitInputParser.parse(in_, units)` with the parser's `convert`
and `check_dims` flags: parse the raw input, then (when units are in
scope) check dimensions if `check_dims and not convert`, and convert
if `convert`. -/
def parse (inp : Input) (units : Option Unit) (convert check_dims : Bool) :
    Except UnitsError Quantity :=
  match parseInternal inp units with
  | Except.error e => Except.error e
  | Except.ok q =>
    match units with
    | none => Except.ok q
    | some u =>
      if check_dims && !convert then
        if q.units.dim = u.dim then Except.ok q
        else Except.error (UnitsError.dimensionality q.units.dim u.dim)
      else if convert then q.to u
      else Except.ok q

/-- `units.convert(value, units)`:
`process_unit_input(value, units, convert=True).m` — parse with
conversion on, then strip the unit tag. -/
def convert (value : Input) (units : Unit) : Except UnitsError ℚ :=
  Except.map Quantity.mag (parse value (some units) true false)

/-- The round-trip `convert(convert(x, 'mm'), 'inch')` from the spec:
the inner result is a bare magnitude, so the outer call receives it as
a unit-less number. -/
def roundTripMmInch (inp : Input) : Except UnitsError ℚ :=
  match convert inp mm with
  | Except.ok m => convert (Input.num m) inch
  | Except.error e => Except.error e

/-- The bare-number branch of the legacy `process_unit_input`
(`libtalley/units.py`, backed by `unyt`):
`unyt.unyt_array(in_, default_units)`, where a `None` default yields a
dimensionless array rather than an error. -/
def legacyBareNumber (x : ℚ) (default_units : Option Unit) : Quantity :=
  ⟨x, default_units.getD dimensionless⟩

end units

/-! ### Helper lemmas -/

/-- Walking the knot list finds a bracketing segment whenever the
evaluation point does not exceed the last knot. -/
theorem interpPoints_isSome : ∀ (ps : List (ℚ × ℚ)) (p q : ℚ × ℚ) (x : ℚ)
    (lst : ℚ × ℚ), (q :: ps).getLast? = some lst → x ≤ lst.1 →
    (interpPoints (p :: q :: ps) x).isSome := by
  intro ps
  induction ps with
  | nil =>
      intro p q x lst hlast hx
      have hq : lst = q := by simpa using hlast.symm
      subst hq
      simp [interpPoints, hx]
  | cons r rs ih =>
      intro p q x lst hlast hx
      by_cases hq : x ≤ q.1
      · simp [interpPoints, hq]
      · have h2 : (r :: rs).getLast? = some lst := by
          simpa [List.getLast?_cons_cons] using hlast
        simpa [interpPoints, hq] using ih q r x lst h2 hx

/-- Packaging of `interpPoints_isSome` that does not need the list in
cons-cons form. -/
theorem interpPoints_isSome_of (ps : List (ℚ × ℚ)) (x : ℚ) (lst : ℚ × ℚ)
    (hlen : 2 ≤ ps.length) (hlast : ps.getLast? = some lst) (hx : x ≤ lst.1) :
    (interpPoints ps x).isSome := by
  match ps, hlen with
  | p :: q :: rest, _ =>
      exact interpPoints_isSome rest p q x lst (by simpa using hlast) hx

/-! ### Claims about `fema_p695.py` -/

/-- C4: the table selected for design category "Cmax" is the very
table selected for "Dmin", both in the SSF grid dictionary used by
`ssf` and (after lower-casing) in the mapped-value dictionary used by
`mapped_value`: aliased categories resolve to the same data, not
independent copies. -/
theorem cmax_aliases_dmin :
    zSsfDict "Cmax" = zSsfDict "Dmin"
    ∧ ∀ value : String, mapped_value value "Cmax" = mapped_value value "Dmin" := by
  exact ⟨rfl, fun value => rfl⟩

/-- C10: for any period and any known design category, `ssf` rejects a
period-based ductility `mu_t < 1` with a `ValueError`, before any
interpolation is attempted. -/
theorem ssf_rejects_mu_below_one (T mu_t : ℚ) (sdc : String)
    (Z : List (List ℚ)) (h : zSsfDict sdc = some Z) (hmu : mu_t < 1) :
    ssf T mu_t sdc = Except.error "mu_t must be greater than or equal to 1" := by
  simp [ssf, h, hmu]

/-- Witness for `ssf_rejects_mu_below_one` at `T = 1`, `mu_t = 0.5`,
`sdc = "Dmax"`. -/
theorem ssf_rejects_mu_below_one_witness :
    ssf 1 0.5 "Dmax" = Except.error "mu_t must be greater than or equal to 1" :=
  ssf_rejects_mu_below_one 1 0.5 "Dmax" zssfDmax rfl (by norm_num)

/-- C2: with the ductility at or above the grid's upper bound
(`mu_t >= 8`), a period at or below the lower bound returns the
first-row / last-column corner entry of the selected SSF table
directly, and a period at or above the upper bound returns the
last-row / last-column corner entry, with no interpolation. -/
theorem ssf_corner_values (T mu_t : ℚ) (sdc : String) (Z : List (List ℚ))
    (h : zSsfDict sdc = some Z) (h8 : 8 ≤ mu_t) :
    (T ≤ 0.5 → ssf T mu_t sdc = Except.ok ((Z.headD []).getLastD 0))
    ∧ (1.5 ≤ T → ssf T mu_t sdc = Except.ok ((Z.getLastD []).getLastD 0)) := by
  have hmu : ¬mu_t < 1 := by linarith
  constructor
  · intro hT
    simp [ssf, h, hmu, hT, h8]
  · intro hT
    have hT' : ¬T ≤ 0.5 := by norm_num at hT ⊢; linarith
    simp [ssf, h, hmu, hT, hT', h8]

/-- Witness for `ssf_corner_values`: at `T = 0.5`, `mu_t = 8` the Dmax
table's first-row corner 1.33 is returned as-is. -/
theorem ssf_corner_values_witness :
    ssf 0.5 8 "Dmax" = Except.ok 1.33 := by
  have h := (ssf_corner_values 0.5 8 "Dmax" zssfDmax rfl le_rfl).1 le_rfl
  rw [h]
  norm_num [zssfDmax]

/-- C1 (failing branch): at `T = 1` (strictly inside the period grid)
and `mu_t = 8`, `ssf` builds the interpolant over the period grid
`_Y_T` (0.5 … 1.5) but evaluates it at `mu_t = 8`, outside that grid,
so the call fails — while the 1-D interpolation of the last column at
`T = 1` that the spec describes is well-defined (it is 1.46). -/
theorem ssf_inner_high_mu_fails :
    ssf 1 8 "Dmax" = Except.error "interpolation out of range"
    ∧ interp1d yT (lastColumn zssfDmax) 1 = some 1.46 := by
  have hD : zSsfDict "Dmax" = some zssfDmax := rfl
  constructor
  · norm_num [ssf, hD, interp1d, yT, lastColumn, zssfDmax, interpPoints]
  · norm_num [interp1d, yT, lastColumn, zssfDmax, interpPoints]

/-- C3: for positive `R` and `T` and a known design category,
`seismic_response_coeff` returns `SDS/R` for `T` at or below the
category's `Ts`, and `max(SD1/(T*R), 0.044*SDS)` above it, in both
cases floored at 0.01, where `Ts`, `SD1`, `SDS` are the category's
mapped values. -/
theorem seismic_response_coeff_formula (R T : ℚ) (sdc : String)
    (m : MappedValues) (hR : 0 < R) (hT : 0 < T)
    (h : mappedValueDict (pyLower sdc) = some m) :
    seismic_response_coeff R T sdc =
      some (if T ≤ m.ts then max (m.sds / R) 0.01
            else max (max (m.sd1 / (T * R)) (0.044 * m.sds)) 0.01) := by
  have hts : pyLower "Ts" = "ts" := by decide
  have hsd1 : pyLower "SD1" = "sd1" := by decide
  have hsds : pyLower "SDS" = "sds" := by decide
  have h1 : mapped_value "Ts" sdc = some m.ts := by
    simp [mapped_value, hts, h, mappedValueLookup]
  have h2 : mapped_value "SD1" sdc = some m.sd1 := by
    simp [mapped_value, hsd1, h, mappedValueLookup]
  have h3 : mapped_value "SDS" sdc = some m.sds := by
    simp [mapped_value, hsds, h, mappedValueLookup]
  simp only [seismic_response_coeff, h1, h2, h3]
  by_cases hc : T ≤ m.ts
  · simp [hc]
  · simp [hc]

/-- Witness for `seismic_response_coeff_formula` at `R = 1`, `T = 1`,
`sdc = "Dmax"`: `T = 1 > Ts = 0.6`, so the result is
`max(max(0.6/1, 0.044·1), 0.01) = 0.6`. -/
theorem seismic_response_coeff_formula_witness :
    seismic_response_coeff 1 1 "Dmax" = some 0.6 := by
  have h := seismic_response_coeff_formula 1 1 "Dmax" dmaxValues one_pos one_pos rfl
  rw [h]
  norm_num [dmaxValues, max_def]

/-- C5: for a known design category, `sf1` fails with the
out-of-range error exactly on the closed exterior of the period
domain — including the boundary values 0.25 and 5.0 themselves — and
returns a value for every period strictly inside. -/
theorem sf1_domain (T : ℚ) (sdc : String) (m : MappedValues)
    (h : mappedValueDict (pyLower sdc) = some m) :
    ((T ≤ 0.25 ∨ 5 ≤ T) → sf1 T sdc = Except.error "Period is out of range")
    ∧ (0.25 < T → T < 5 → ∃ v, sf1 T sdc = Except.ok v) := by
  have hhead : tInterpTable.headD 0 = 0.25 := rfl
  have hlast : tInterpTable.getLastD 0 = 5 := by norm_num [tInterpTable]
  constructor
  · intro hout
    simp only [sf1]
    rw [hhead, hlast, if_pos hout]
  · intro hlo hhi
    have hne : ¬(T ≤ tInterpTable.headD 0 ∨ tInterpTable.getLastD 0 ≤ T) := by
      rw [hhead, hlast]
      push_neg
      exact ⟨hlo, hhi⟩
    have hzlast : (tInterpTable.zip snrtTable).getLast? = some (5.0, 0.041) := rfl
    have hx5 : T ≤ ((5.0 : ℚ), (0.041 : ℚ)).1 := by
      norm_num
      linarith
    have hsome : (interpPoints (tInterpTable.zip snrtTable) T).isSome :=
      interpPoints_isSome_of _ T (5.0, 0.041) (by norm_num [tInterpTable, snrtTable])
        hzlast hx5
    have hint : (interp1d tInterpTable snrtTable T).isSome := by
      have heq : interp1d tInterpTable snrtTable T =
          if T < 0.25 then none else interpPoints (tInterpTable.zip snrtTable) T := rfl
      rw [heq, if_neg (not_lt.mpr (le_of_lt hlo))]
      exact hsome
    obtain ⟨SNRT, hSNRT⟩ := Option.isSome_iff_exists.mp hint
    have hsm1 : pyLower "SM1" = "sm1" := by decide
    have hsms : pyLower "SMS" = "sms" := by decide
    have h1 : mapped_value "SM1" sdc = some m.sm1 := by
      simp [mapped_value, hsm1, h, mappedValueLookup]
    have h2 : mapped_value "SMS" sdc = some m.sms := by
      simp [mapped_value, hsms, h, mappedValueLookup]
    have hsmt : smt T sdc = some (if T ≤ m.sm1 / m.sms then m.sms else m.sm1 / T) := by
      simp [smt, h1, h2]
    refine ⟨(if T ≤ m.sm1 / m.sms then m.sms else m.sm1 / T) / SNRT, ?_⟩
    simp only [sf1, if_neg hne, hSNRT, hsmt]

/-- Witness for `sf1_domain`: `sf1` succeeds at `T = 1` for "Dmax". -/
theorem sf1_domain_witness : ∃ v, sf1 1 "Dmax" = Except.ok v :=
  (sf1_domain 1 "Dmax" dmaxValues rfl).2 (by norm_num) (by norm_num)

/-! ### Claims about the unit parser (`src/libtalley/units.py`) -/

open units in
/-- C6: a bare `1000` with default units psi, the 2-tuple
`(1000, 'psi')`, the string `"1000 psi"`, and an existing
`1000 psi` quantity all parse to the same Quantity. -/
theorem parse_input_shapes_agree :
    units.parse (units.Input.num 1000) (some units.psi) false false
        = Except.ok ⟨1000, units.psi⟩
    ∧ units.parse (units.Input.pair 1000 units.psi) none false false
        = Except.ok ⟨1000, units.psi⟩
    ∧ units.parse (units.Input.str 1000 units.psi) none false false
        = Except.ok ⟨1000, units.psi⟩
    ∧ units.parse (units.Input.quant ⟨1000, units.psi⟩) none false false
        = Except.ok ⟨1000, units.psi⟩ :=
  ⟨rfl, rfl, rfl, rfl⟩

/-- C7: `convert(parse(30, default_units='ft'), 's')` fails with a
`DimensionalityError` (length vs time); and in general, with a target
unit in scope and `convert` or `check_dims` set, `parse` fails with
the `DimensionalityError` carrying the two dimensions exactly when the
parsed input's dimension differs from the target's. -/
theorem parse_dimensionality_error :
    units.parse (units.Input.num 30) (some units.ft) false false
        = Except.ok ⟨30, units.ft⟩
    ∧ units.convert (units.Input.quant ⟨30, units.ft⟩) units.s
        = Except.error (units.UnitsError.dimensionality
            units.Dimension.length units.Dimension.time)
    ∧ ∀ (inp : units.Input) (u : units.Unit) (cv cd : Bool)
        (q : units.Quantity),
        units.parseInternal inp (some u) = Except.ok q → (cv || cd) = true →
        (units.parse inp (some u) cv cd
            = Except.error (units.UnitsError.dimensionality q.units.dim u.dim)
          ↔ q.units.dim ≠ u.dim) := by
  refine ⟨rfl, rfl, ?_⟩
  intro inp u cv cd q hq hflags
  simp only [units.parse, hq]
  cases cv with
  | true =>
      simp only [Bool.and_false, Bool.not_true, Bool.and_true, Bool.false_and,
        Bool.and_self, if_true, if_false, Bool.false_eq_true, ite_false,
        Bool.and_eq_true]
      by_cases hd : q.units.dim = u.dim
      · simp [units.Quantity.to, hd]
      · simp [units.Quantity.to, hd]
  | false =>
      cases cd with
      | true =>
          by_cases hd : q.units.dim = u.dim
          · simp [units.Quantity.to, hd]
          · simp [units.Quantity.to, hd]
      | false => simp at hflags

open units in
/-- Witness for the general part of `parse_dimensionality_error`,
instantiated at the claim's own input: a 30 ft quantity converted to
seconds. -/
theorem parse_dimensionality_error_witness :
    units.parse (units.Input.quant ⟨30, units.ft⟩) (some units.s) true false
      = Except.error (units.UnitsError.dimensionality
          units.Dimension.length units.Dimension.time) :=
  (parse_dimensionality_error.2.2 (units.Input.quant ⟨30, units.ft⟩)
    units.s true false ⟨30, units.ft⟩ rfl rfl).mpr (by decide)

/-- C8 counterexample: for `x = 1 inch`, the round-trip
`convert(convert(x, 'mm'), 'inch')` returns 25.4 — the magnitude in
millimetres, since the outer call receives a bare number and treats it
as already being in inches — which is not within 1e-9 relative
tolerance of the original magnitude 1. -/
theorem roundTrip_inch_counterexample :
    units.roundTripMmInch (units.Input.quant ⟨1, units.inch⟩) = Except.ok 25.4
    ∧ ¬(|(25.4 : ℚ) - 1| ≤ 1e-9 * |(1 : ℚ)|) := by
  constructor
  · norm_num [units.roundTripMmInch, units.convert, units.parse,
      units.parseInternal, units.Quantity.to, units.mm, units.inch, Except.map]
  · rw [not_le, abs_of_pos (by norm_num : (0 : ℚ) < 25.4 - 1)]
    norm_num

/-- C8 (amended): the round-trip `convert(convert(x, 'mm'), 'inch')`
returns the magnitude of `x` expressed in millimetres; this recovers
the original magnitude (exactly) for a bare unit-less input, and for
an input already carrying millimetre units. -/
theorem roundTrip_recovers_mm_magnitude (x : ℚ) :
    units.roundTripMmInch (units.Input.num x) = Except.ok x
    ∧ ∀ q : units.Quantity, q.units = units.mm →
        units.roundTripMmInch (units.Input.quant q) = Except.ok q.mag := by
  constructor
  · simp only [units.roundTripMmInch, units.convert, units.parse,
      units.parseInternal, units.Quantity.to, units.mm, units.inch, Except.map]
    norm_num
  · intro q hq
    simp only [units.roundTripMmInch, units.convert, units.parse,
      units.parseInternal, units.Quantity.to, hq, units.mm, units.inch, Except.map]
    norm_num

/-- Witness for `roundTrip_recovers_mm_magnitude` at `x = 7` and at
the quantity `7 mm`. -/
theorem roundTrip_recovers_mm_magnitude_witness :
    units.roundTripMmInch (units.Input.num 7) = Except.ok 7
    ∧ units.roundTripMmInch (units.Input.quant ⟨7, units.mm⟩) = Except.ok 7 :=
  ⟨(roundTrip_recovers_mm_magnitude 7).1,
   (roundTrip_recovers_mm_magnitude 7).2 ⟨7, units.mm⟩ rfl⟩

/-- C9: a bare number parsed with no default units set fails with the
missing-units error (`ValueError` in the source) in the reference
parser `UnitInputParser`, for any setting of the `convert` /
`check_dims` flags — while the legacy `process_unit_input` in
`libtalley/units.py` instead passes it through tagged dimensionless. -/
theorem parse_bare_number_requires_units (x : ℚ) (cv cd : Bool) :
    units.parse (units.Input.num x) none cv cd
        = Except.error units.UnitsError.missingUnits
    ∧ units.legacyBareNumber x none = ⟨x, units.dimensionless⟩ :=
  ⟨rfl, rfl⟩
